import Mathlib

/-!
Shallow embedding of `src/main.py` (FediBackfiller), the backfill relay
described in the specification.  Outbound HTTP calls are modelled by explicit
environments (`Env`, an oracle for the tree-children endpoint, response
functions for the notification endpoint); the two process-lifetime caches are
explicit state (`St`).  Each request emits a trace of outbound-I/O / gate
events (`Ev`) in the order the Python code performs them.
-/

/-- Debounce window in seconds (`DEBOUNCE_TIMEOUT = 180`, main.py line 33). -/
def DEBOUNCE_TIMEOUT : Nat := 180

/-- Events a request emits, in program order: the authentication network call
(`POST /api/i`, lines 54-56), the debounce-cache check (line 67) and mark
(line 71), the redirect-resolving GET (line 74), the flat context listing
(line 92), one tree children listing per visited node (line 125), and one
notification (`POST /api/ap/show`) per discovered reply (lines 103, 153). -/
inductive Ev where
  | authNet : Ev
  | debounceCheck : Ev
  | debounceMark : Ev
  | redirectGet : Ev
  | flatListing : Ev
  | treeListing (noteId : String) (depth : Nat) : Ev
  | notify (uri : String) : Ev
deriving DecidableEq, Repr

/-- One entry of the JSON array returned by `POST /api/notes/children`:
a child note's `id`, and its `uri` when the remote includes one
(`uri` is absent for the remote's local posts, main.py line 145). -/
structure ChildEntry where
  id : String
  uri : Option String
deriving DecidableEq, Repr

/-- A node of the reply tree built by `fetch_replies_recursive`: the child
entry's `id`, its (possibly synthesized) `uri`, and the recursively fetched
`replies` (main.py lines 144-150). -/
inductive ReplyNode where
  | mk (id : String) (uri : String) (replies : List ReplyNode) : ReplyNode

/-- The `id` field of a `ReplyNode`. -/
def ReplyNode.id : ReplyNode → String
  | .mk i _ _ => i

/-- The `uri` field of a `ReplyNode`. -/
def ReplyNode.uri : ReplyNode → String
  | .mk _ u _ => u

/-- The `replies` field of a `ReplyNode`. -/
def ReplyNode.replies : ReplyNode → List ReplyNode
  | .mk _ _ r => r

/-- All nodes of a forest of `ReplyNode`s, each node together with all nodes
of its `replies` subtree. -/
def allNodesList : List ReplyNode → List ReplyNode
  | [] => []
  | ReplyNode.mk i u rs :: t =>
      ReplyNode.mk i u rs :: (allNodesList rs ++ allNodesList t)

/-- The Mastodon-branch cap (main.py lines 100-101): if more than 50
descendants were returned, keep the Python slice `[-50:]`, i.e. the last 50
items of the (oldest-first) list; otherwise the list is untouched. -/
def capMastodon {α : Type} (l : List α) : List α :=
  if l.length > 50 then l.drop (l.length - 50) else l

/-- The Misskey-branch cap (main.py lines 137-138): if more than 50 children
were returned, keep the Python slice `[:50]`, i.e. the first 50 items of the
(newest-first) list; otherwise the list is untouched. -/
def capMisskey {α : Type} (l : List α) : List α :=
  if l.length > 50 then l.take 50 else l

/-- The two reply-discovery strategies of the spec's Platform Detector. -/
inductive Platform where
  | FlatAPI : Platform
  | TreeAPI : Platform
deriving DecidableEq, Repr

/-- Platform detection (main.py line 88): an 18-character post identifier
selects the flat Mastodon-style context API, any other length the recursive
Misskey-style children API. -/
def detectPlatform (post_id : String) : Platform :=
  if post_id.length = 18 then Platform.FlatAPI else Platform.TreeAPI

/-- `post_id = request.post_url.split("/")[-1]` (main.py line 84). -/
def extractPostId (url : String) : String :=
  (url.splitOn "/").getLastD ""

/-- `urllib.parse.urlsplit(url).netloc` (main.py line 85), modelled for
`scheme://host/path` URLs: the text between `"://"` and the next `"/"`. -/
def netlocOf (url : String) : String :=
  match url.splitOn "://" with
  | _ :: rest :: _ => (rest.splitOn "/").headD ""
  | _ => ""

/-- What one `POST {instance}/api/ap/show` call did: the transport raised an
exception or returned a non-200 status (`"FAILED FETCH"` log), or it
returned 200 (`"FETCHED"` log). -/
inductive NotifyLog where
  | fetchFailed : NotifyLog
  | fetched : NotifyLog
deriving DecidableEq, Repr

/-- `fetch_ap_object` (main.py lines 159-174).  The outbound call's outcome is
given as `Except Unit Nat`: `.error` models the transport raising (caught by
the `try` on line 161, line 166), `.ok status` a response.  The Python
function swallows both failure shapes and returns `None` in every branch; the
embedding returns the log line it would print. -/
def fetch_ap_object (outcome : Except Unit Nat) : NotifyLog :=
  match outcome with
  | Except.error _ => NotifyLog.fetchFailed
  | Except.ok status => if status ≠ 200 then NotifyLog.fetchFailed else NotifyLog.fetched

/-- The notification fan-out over a batch of URIs (main.py lines 103-104 and
153-154): one `fetch_ap_object` task per URI, joined by `asyncio.gather`.
`responses` gives each URI's outcome. -/
def notify_all (responses : String → Except Unit Nat) (uris : List String) :
    List NotifyLog :=
  uris.map fun u => fetch_ap_object (responses u)

/-- `fetch_replies_recursive` (main.py lines 120-156).  `oracle` models the
`POST /api/notes/children` endpoint: `none` is a non-200 response (line 131),
`some l` a 200 response with JSON array `l`.  Returns the built forest and
the trace of outbound calls in program order: the node's own listing call,
then each child's recursive trace (the loop of lines 144-150), then one
notification per child (lines 153-154, after the loop).  The `token` and
`client` parameters of the Python function only feed the notification calls
and are captured by the trace. -/
def fetch_replies_recursive (oracle : String → Option (List ChildEntry))
    (post_base_host : String) (post_id : String) (depth max_depth : Nat) :
    List ReplyNode × List Ev :=
  if depth > max_depth then ([], [])
  else
    match oracle post_id with
    | none => ([], [Ev.treeListing post_id depth])
    | some resp =>
        let resp := capMisskey resp
        let children := resp.map fun reply =>
          let uri := match reply.uri with
            | some u => u
            | none => "https://" ++ post_base_host ++ "/notes/" ++ reply.id
          let sub := fetch_replies_recursive oracle post_base_host reply.id
            (depth + 1) max_depth
          (ReplyNode.mk reply.id uri sub.1, sub.2)
        (children.map Prod.fst,
          Ev.treeListing post_id depth ::
            ((children.map Prod.snd).flatten ++
              children.map fun c => Ev.notify c.1.uri))
termination_by max_depth + 1 - depth
decreasing_by omega

/-- The inbound request body (main.py lines 41-43). -/
structure FetchRepliesRequest where
  post_url : String
  token : String

/-- Process state at the start of a request: the two process-lifetime caches
(`AUTHENTICATION_CACHE` keyed by token, `DEBOUNCE_CACHE` keyed by post URL,
main.py lines 31-32) and the current wall-clock time in whole seconds.  Both
`datetime.datetime.now()` readings a request takes (lines 68 and 71) are
modelled by the single value `now`. -/
structure St where
  authCache : String → Option String
  debounceCache : String → Option Nat
  now : Nat

/-- The remote world one request sees: the status and body of the
`POST /api/i` identity check, the status and final URL of the
redirect-resolving GET, the status and descendant URLs of the flat context
listing, and the children-listing oracle for the tree branch. -/
structure Env where
  authStatus : Nat
  authUsername : String
  redirectStatus : Nat
  redirectFinalUrl : String
  flatStatus : Nat
  flatDescendants : List String
  treeOracle : String → Option (List ChildEntry)

/-- What a request returns: the `message` of the response body, the HTTP
status the endpoint answers with (plain dicts are 200, `JSONResponse`
branches 500), the Misskey `replies` payload when present, the state the
caches are left in, and the trace of events in program order. -/
structure ReqResult where
  message : String
  httpStatus : Nat
  replies : Option (List ReplyNode)
  st : St
  trace : List Ev

/-- Lines 71-117 of main.py: the request body after the debounce gate decided
to proceed.  Marks the debounce cache at the raw `request.post_url`, resolves
redirects (fatal on non-200), extracts the post id and host from the final
URL, and dispatches on the detected platform.  `tr1` is the trace accumulated
so far.  The Misskey branch's `try`/`except` (lines 113-117) cannot fire in
the embedding: the oracle already models non-200 children listings, which
`fetch_replies_recursive` absorbs, and no other exception source is
modelled. -/
def fetch_replies_proceed (env : Env) (st : St) (req : FetchRepliesRequest)
    (tr1 : List Ev) : ReqResult :=
  let st2 : St :=
    { st with debounceCache := fun k =>
        if k = req.post_url then some st.now else st.debounceCache k }
  let tr2 := tr1 ++ [Ev.debounceMark, Ev.redirectGet]
  if env.redirectStatus ≠ 200 then
    { message := "Failed to fetch post URL", httpStatus := 500,
      replies := none, st := st2, trace := tr2 }
  else
    let post_url := env.redirectFinalUrl
    let post_id := extractPostId post_url
    let post_base_host := netlocOf post_url
    match detectPlatform post_id with
    | Platform.FlatAPI =>
        if env.flatStatus ≠ 200 then
          { message := "Failed to fetch Mastodon replies", httpStatus := 500,
            replies := none, st := st2, trace := tr2 ++ [Ev.flatListing] }
        else
          { message := "Fetched Mastodon replies", httpStatus := 200,
            replies := none, st := st2,
            trace := tr2 ++ [Ev.flatListing] ++
              (capMastodon env.flatDescendants).map Ev.notify }
    | Platform.TreeAPI =>
        let r := fetch_replies_recursive env.treeOracle post_base_host post_id 0 50
        { message := "Fetched Misskey replies", httpStatus := 200,
          replies := some r.1, st := st2, trace := tr2 ++ r.2 }

/-- Lines 67-117 of main.py: the request body after authentication.  Checks
the debounce cache at the raw `request.post_url` and answers `"Debounced"`
when an entry younger than `DEBOUNCE_TIMEOUT` exists; otherwise proceeds.
`tr0` is the trace the authentication step accumulated. -/
def fetch_replies_main (env : Env) (st : St) (req : FetchRepliesRequest)
    (tr0 : List Ev) : ReqResult :=
  let debounced : Bool :=
    match st.debounceCache req.post_url with
    | some t => decide (st.now - t < DEBOUNCE_TIMEOUT)
    | none => false
  if debounced then
    { message := "Debounced", httpStatus := 200, replies := none, st := st,
      trace := tr0 ++ [Ev.debounceCheck] }
  else
    fetch_replies_proceed env st req (tr0 ++ [Ev.debounceCheck])

/-- The `/fetch_replies` endpoint (main.py lines 48-117).  First the
authentication gate (lines 52-65): a cache miss issues the identity call,
fails the request on non-200, and caches the username on success; a hit
issues no call.  Then the debounce gate and the rest of the request. -/
def fetch_replies (env : Env) (st : St) (req : FetchRepliesRequest) : ReqResult :=
  match st.authCache req.token with
  | some _ => fetch_replies_main env st req []
  | none =>
      if env.authStatus ≠ 200 then
        { message := "Invalid user token", httpStatus := 200, replies := none,
          st := st, trace := [Ev.authNet] }
      else
        fetch_replies_main env
          { st with authCache := fun k =>
              if k = req.token then some env.authUsername else st.authCache k }
          req [Ev.authNet]

/-- The event trace of one request. -/
def requestTrace (env : Env) (st : St) (req : FetchRepliesRequest) : List Ev :=
  (fetch_replies env st req).trace

/-- Events that are outbound I/O of the reply-discovery and fan-out phase:
listing calls and notifications, as opposed to the authentication call, the
gate events and the redirect GET. -/
def isDiscoveryEvent : Ev → Bool
  | Ev.flatListing => true
  | Ev.treeListing _ _ => true
  | Ev.notify _ => true
  | _ => false

/-- A children-listing world in which the remote never supplies an
explicitly empty `uri`: every `uri` field it does include is a non-empty
string. -/
def oracleUrisNonEmpty (oracle : String → Option (List ChildEntry)) : Prop :=
  ∀ id l e u, oracle id = some l → e ∈ l → e.uri = some u → u ≠ ""

/-- A children-listing world whose root note has one child that carries an
explicitly empty `uri` string, and no deeper children. -/
def oracleC9 : String → Option (List ChildEntry) :=
  fun id => if id = "root" then some [ChildEntry.mk "c1" (some "")] else some []

/-- A children-listing world whose root note has one child without a `uri`
field, and no deeper children. -/
def oracleC9w : String → Option (List ChildEntry) :=
  fun id => if id = "r9" then some [ChildEntry.mk "k1" none] else some []

/-- A children-listing world in which note `"r"` has one child `"bad"` and
every other listing call fails with a non-200 status. -/
def oracleC7 : String → Option (List ChildEntry) :=
  fun id => if id = "r" then some [ChildEntry.mk "bad" (some "u1")] else none

/-- Fresh process state: both caches empty, clock at 0. -/
def stC2 : St := { authCache := fun _ => none, debounceCache := fun _ => none, now := 0 }

/-- A world whose identity check succeeds and whose redirect GET fails. -/
def envC2 : Env :=
  { authStatus := 200, authUsername := "alice", redirectStatus := 500,
    redirectFinalUrl := "", flatStatus := 200, flatDescendants := [],
    treeOracle := fun _ => some [] }

/-- A request with an uncached token. -/
def reqC2 : FetchRepliesRequest := { post_url := "https://a.example/x", token := "t0" }

/-- Fresh process state with the clock at 1000. -/
def stC3 : St :=
  { authCache := fun _ => none, debounceCache := fun _ => none, now := 1000 }

/-- A world in which the caller-supplied URL redirects to a different final
URL carrying an 18-character identifier, and the flat listing then fails. -/
def envC3 : Env :=
  { authStatus := 200, authUsername := "alice", redirectStatus := 200,
    redirectFinalUrl := "https://final.example/@u/123456789012345678",
    flatStatus := 500, flatDescendants := [], treeOracle := fun _ => some [] }

/-- A world for a follow-up request: identity check succeeds, redirect GET
fails. -/
def envC3b : Env :=
  { authStatus := 200, authUsername := "alice", redirectStatus := 500,
    redirectFinalUrl := "", flatStatus := 200, flatDescendants := [],
    treeOracle := fun _ => some [] }

/-- A request for the pre-redirect URL. -/
def reqC3 : FetchRepliesRequest :=
  { post_url := "https://orig.example/r", token := "T" }

/-- A request for the post-redirect (canonical) URL, same token. -/
def reqC3final : FetchRepliesRequest :=
  { post_url := "https://final.example/@u/123456789012345678", token := "T" }

/-- The state the authentication gate leaves behind in the C3 scenario:
token `"T"` cached, debounce cache still empty. -/
def stC3auth : St :=
  { authCache := fun k => if k = "T" then some "alice" else none,
    debounceCache := fun _ => none, now := 1000 }

/-- The state the C3 scenario's first request leaves behind: token cached,
debounce entry at the raw pre-redirect URL. -/
def stC3a : St :=
  { authCache := fun k => if k = "T" then some "alice" else none,
    debounceCache := fun k =>
      if k = "https://orig.example/r" then some 1000 else none,
    now := 1000 }

/-- `stC3a` one second later. -/
def stC3a2 : St :=
  { authCache := fun k => if k = "T" then some "alice" else none,
    debounceCache := fun k =>
      if k = "https://orig.example/r" then some 1000 else none,
    now := 1001 }

/-- Process state with a cached token and a debounce entry, 100 seconds old,
for one URL. -/
def stC3w : St :=
  { authCache := fun _ => some "alice",
    debounceCache := fun u => if u = "https://a.example/1" then some 1000 else none,
    now := 1100 }

/-- A request for the URL whose debounce entry in `stC3w` is active. -/
def reqC3w : FetchRepliesRequest :=
  { post_url := "https://a.example/1", token := "T" }

/-- Fresh process state with the clock at 1000. -/
def stC10 : St :=
  { authCache := fun _ => none, debounceCache := fun _ => none, now := 1000 }

/-- A world whose identity check succeeds and whose redirect GET fails with
a non-200 status: the unreachable-post case. -/
def envC10 : Env :=
  { authStatus := 200, authUsername := "alice", redirectStatus := 500,
    redirectFinalUrl := "", flatStatus := 200, flatDescendants := [],
    treeOracle := fun _ => some [] }

/-- A different world for the follow-up request (every outbound call would
fail). -/
def envC10b : Env :=
  { authStatus := 500, authUsername := "x", redirectStatus := 500,
    redirectFinalUrl := "", flatStatus := 500, flatDescendants := [],
    treeOracle := fun _ => none }

/-- The repeated request. -/
def reqC10 : FetchRepliesRequest :=
  { post_url := "https://u.example/p", token := "tok" }

/-- C4: platform detection is a pure function of the extracted identifier's
length: an identifier of length exactly 18 selects the FlatAPI
(Mastodon-style) strategy, any other length the TreeAPI (Misskey-style)
strategy; `detectPlatform` makes no network call (it is a pure function of
the string). -/
theorem detectPlatform_by_length (post_id : String) :
    (detectPlatform post_id = Platform.FlatAPI ↔ post_id.length = 18) ∧
    (detectPlatform post_id = Platform.TreeAPI ↔ post_id.length ≠ 18) := by
  by_cases h : post_id.length = 18 <;> simp [detectPlatform, h]

/-- C5: the flat-branch cap keeps exactly the last 50 items in input order
(`capMastodon l` equals the reversed 50-item-take of the reversed list);
with 50 or fewer items the list is unchanged, and with more than 50 items
the result has length 50 and the input is the discarded older prefix
followed by the retained items. -/
theorem capMastodon_keeps_last_50 {α : Type} (l : List α) :
    capMastodon l = (l.reverse.take 50).reverse ∧
    (l.length ≤ 50 → capMastodon l = l) ∧
    (l.length > 50 →
      (capMastodon l).length = 50 ∧
      l.take (l.length - 50) ++ capMastodon l = l) := by
  have hrev : (l.reverse.take 50).reverse = l.drop (l.length - 50) := by
    rw [List.reverse_take]
    simp
  by_cases h : l.length > 50
  · refine ⟨?_, ?_, fun _ => ⟨?_, ?_⟩⟩
    · rw [hrev]; simp [capMastodon, h]
    · intro h'; omega
    · simp [capMastodon, h]; omega
    · simp [capMastodon, h, List.take_append_drop]
  · have h' : l.length ≤ 50 := by omega
    refine ⟨?_, fun _ => ?_, fun hgt => absurd hgt h⟩
    · have h0 : l.length - 50 = 0 := by omega
      rw [hrev, h0]
      simp [capMastodon, h]
    · simp [capMastodon, h]

/-- C6: the tree-branch per-node cap keeps exactly the first 50 children in
input order (`capMisskey l = l.take 50` for every list); with 50 or fewer
items the list is unchanged, and with more than 50 items the result has
length 50 and the input is the retained items followed by the discarded
rest. -/
theorem capMisskey_keeps_first_50 {α : Type} (l : List α) :
    capMisskey l = l.take 50 ∧
    (l.length ≤ 50 → capMisskey l = l) ∧
    (l.length > 50 →
      (capMisskey l).length = 50 ∧
      capMisskey l ++ l.drop 50 = l) := by
  by_cases h : l.length > 50
  · refine ⟨by simp [capMisskey, h], fun h' => by omega, fun _ => ⟨?_, ?_⟩⟩
    · simp [capMisskey, h]; omega
    · simp [capMisskey, h, List.take_append_drop]
  · have h' : l.length ≤ 50 := by omega
    exact ⟨by simp [capMisskey, h, List.take_of_length_le h'],
      fun _ => by simp [capMisskey, h],
      fun hgt => absurd hgt h⟩

/-- Witness for C5 at a concrete input: with 80 descendants, 50 are kept and
the 30 oldest are the discarded prefix. -/
theorem capMastodon_keeps_last_50_witness :
    (capMastodon (List.range 80)).length = 50 ∧
    (List.range 80).take 30 ++ capMastodon (List.range 80) = List.range 80 := by
  have h := (capMastodon_keeps_last_50 (List.range 80)).2.2 (by simp)
  simpa using h

/-- Witness for C6 at a concrete input: with 80 children, the first 50 are
kept and the remaining 30 are the discarded rest. -/
theorem capMisskey_keeps_first_50_witness :
    (capMisskey (List.range 80)).length = 50 ∧
    capMisskey (List.range 80) ++ (List.range 80).drop 50 = List.range 80 :=
  (capMisskey_keeps_first_50 (List.range 80)).2.2 (by simp)

/-- C8: the notification fan-out issues exactly one `fetch_ap_object` call
per URI of the batch (joined before `notify_all` returns, which in the
embedding is the totality of the function), and each item's outcome depends
only on that item's own response: a failing item neither removes other items
from the batch nor propagates any error — `notify_all` returns the full list
of per-item logs for every response environment. -/
theorem notify_all_isolates_failures (responses : String → Except Unit Nat)
    (uris : List String) :
    (notify_all responses uris).length = uris.length ∧
    ∀ i : Nat, (notify_all responses uris)[i]? =
      (uris[i]?).map fun u => fetch_ap_object (responses u) := by
  refine ⟨by simp [notify_all], fun i => ?_⟩
  simp [notify_all, List.getElem?_map]

/-- Unfolding: a branch entered above the depth bound answers without doing
anything (main.py lines 121-123). -/
theorem frr_of_depth_gt (oracle : String → Option (List ChildEntry))
    (host pid : String) {depth max_depth : Nat} (h : depth > max_depth) :
    fetch_replies_recursive oracle host pid depth max_depth = ([], []) := by
  rw [fetch_replies_recursive.eq_def]
  simp [h]

/-- Unfolding: a non-200 children listing yields no children and only the
listing event (main.py lines 131-132). -/
theorem frr_of_none (oracle : String → Option (List ChildEntry))
    (host pid : String) {depth max_depth : Nat} (h : ¬ depth > max_depth)
    (ho : oracle pid = none) :
    fetch_replies_recursive oracle host pid depth max_depth =
      ([], [Ev.treeListing pid depth]) := by
  rw [fetch_replies_recursive.eq_def]
  simp [h, ho]

/-- Unfolding: the forest a 200 children listing produces — one node per
capped child, with the remote or synthesized `uri` and the recursively
fetched subtree. -/
theorem frr_fst_of_some (oracle : String → Option (List ChildEntry))
    (host pid : String) {depth max_depth : Nat} (h : ¬ depth > max_depth)
    {resp : List ChildEntry} (ho : oracle pid = some resp) :
    (fetch_replies_recursive oracle host pid depth max_depth).1 =
      (capMisskey resp).map fun reply =>
        ReplyNode.mk reply.id
          (match reply.uri with
            | some u => u
            | none => "https://" ++ host ++ "/notes/" ++ reply.id)
          (fetch_replies_recursive oracle host reply.id (depth + 1) max_depth).1 := by
  rw [fetch_replies_recursive.eq_def]
  simp [h, ho, List.map_map]

/-- Unfolding: the trace a 200 children listing produces — the node's own
listing event, the children's traces in order, then one notification per
child. -/
theorem frr_snd_of_some (oracle : String → Option (List ChildEntry))
    (host pid : String) {depth max_depth : Nat} (h : ¬ depth > max_depth)
    {resp : List ChildEntry} (ho : oracle pid = some resp) :
    (fetch_replies_recursive oracle host pid depth max_depth).2 =
      Ev.treeListing pid depth ::
        (((capMisskey resp).map fun reply =>
            (fetch_replies_recursive oracle host reply.id (depth + 1) max_depth).2).flatten ++
          (capMisskey resp).map fun reply =>
            Ev.notify (match reply.uri with
              | some u => u
              | none => "https://" ++ host ++ "/notes/" ++ reply.id)) := by
  rw [fetch_replies_recursive.eq_def]
  simp [h, ho, List.map_map]
  rfl

/-- Every event the recursive fetcher emits is a listing call or a
notification: the tree traversal touches neither gate nor the auth or
redirect endpoints. -/
theorem frr_trace_discovery (oracle : String → Option (List ChildEntry))
    (host : String) (pid : String) (depth max_depth : Nat) :
    ∀ e ∈ (fetch_replies_recursive oracle host pid depth max_depth).2,
      isDiscoveryEvent e = true := by
  induction pid, depth, max_depth using fetch_replies_recursive.induct oracle host with
  | case1 pid depth max_depth h =>
      rw [frr_of_depth_gt oracle host pid h]
      simp
  | case2 pid depth max_depth h ho =>
      rw [frr_of_none oracle host pid h ho]
      intro e he
      simp at he
      subst he
      rfl
  | case3 pid depth max_depth h resp ho ih =>
      intro e he
      rw [frr_snd_of_some oracle host pid h ho] at he
      simp [List.mem_flatten] at he
      rcases he with rfl | ⟨reply, _, htr⟩ | ⟨reply, _, rfl⟩
      · rfl
      · exact ih reply e htr
      · rfl

/-- Every listing call the recursive fetcher emits happens at a depth
between the starting depth and the depth bound. -/
theorem frr_listing_depth (oracle : String → Option (List ChildEntry))
    (host : String) (pid : String) (depth max_depth : Nat) :
    ∀ id d, Ev.treeListing id d ∈
        (fetch_replies_recursive oracle host pid depth max_depth).2 →
      depth ≤ d ∧ d ≤ max_depth := by
  induction pid, depth, max_depth using fetch_replies_recursive.induct oracle host with
  | case1 pid depth max_depth h =>
      rw [frr_of_depth_gt oracle host pid h]
      simp
  | case2 pid depth max_depth h ho =>
      rw [frr_of_none oracle host pid h ho]
      intro id d hd
      simp at hd
      omega
  | case3 pid depth max_depth h resp ho ih =>
      intro id d hd
      rw [frr_snd_of_some oracle host pid h ho] at hd
      simp [List.mem_flatten] at hd
      rcases hd with ⟨h1, h2⟩ | ⟨reply, hmem, htr⟩
      · omega
      · have := ih reply id d htr
        omega

/-- C1: for every invocation of the recursive reply-tree fetcher with
`maxDepth = 50`, a branch entered at depth strictly greater than 50 returns
the empty sequence immediately and issues no children-listing call (its
trace is empty), and every children-listing call of the traversal happens at
depth at most 50 — no path descends beyond 50 recursive calls below the
root. -/
theorem tree_fetch_depth_bounded (oracle : String → Option (List ChildEntry))
    (host pid : String) (depth : Nat) :
    (depth > 50 → fetch_replies_recursive oracle host pid depth 50 = ([], [])) ∧
    (∀ id d, Ev.treeListing id d ∈
        (fetch_replies_recursive oracle host pid depth 50).2 → d ≤ 50) :=
  ⟨fun h => frr_of_depth_gt oracle host pid h,
   fun id d hd => (frr_listing_depth oracle host pid depth 50 id d hd).2⟩

/-- Evaluation: the traversal of a world whose every listing answers with an
empty children array queries only the root. -/
theorem frr_emptyOracle_eval :
    fetch_replies_recursive (fun _ => some []) "h.example" "p" 0 50 =
      ([], [Ev.treeListing "p" 0]) := by
  rw [fetch_replies_recursive.eq_def]
  norm_num [capMisskey]

/-- Witness for C1 at a concrete input: a branch invoked at depth 51 returns
empty with an empty trace, and the root listing of a depth-0 traversal
happens at depth 0 ≤ 50. -/
theorem tree_fetch_depth_bounded_witness :
    fetch_replies_recursive (fun _ => some []) "h.example" "p" 51 50 = ([], []) ∧
    (0 : Nat) ≤ 50 :=
  ⟨(tree_fetch_depth_bounded (fun _ => some []) "h.example" "p" 51).1 (by decide),
   (tree_fetch_depth_bounded (fun _ => some []) "h.example" "p" 0).2 "p" 0
     (by rw [frr_emptyOracle_eval]; simp)⟩

/-- C7: a non-200 children listing at a single node is absorbed as that node
having empty children — the branch returns the empty sequence (after its one
listing call) instead of failing — and the traversal of a node whose listing
succeeded still produces one `ReplyNode` per capped child, whatever happens
in the children's own subtrees. -/
theorem tree_node_failure_absorbed (oracle : String → Option (List ChildEntry))
    (host pid cid : String) (depth max_depth : Nat) (resp : List ChildEntry)
    (h : ¬ depth > max_depth) :
    (oracle cid = none →
      fetch_replies_recursive oracle host cid depth max_depth =
        ([], [Ev.treeListing cid depth])) ∧
    (oracle pid = some resp →
      (fetch_replies_recursive oracle host pid depth max_depth).1.map ReplyNode.id =
        (capMisskey resp).map ChildEntry.id) := by
  constructor
  · exact fun ho => frr_of_none oracle host cid h ho
  · intro ho
    rw [frr_fst_of_some oracle host pid h ho]
    simp [List.map_map, Function.comp, ReplyNode.id]

/-- Witness for C7 at a concrete input: in `oracleC7`, the listing of node
`"bad"` fails and is absorbed as empty children, while its parent `"r"`
still returns one node per child. -/
theorem tree_node_failure_absorbed_witness :
    fetch_replies_recursive oracleC7 "h7.example" "bad" 0 50 =
      ([], [Ev.treeListing "bad" 0]) ∧
    (fetch_replies_recursive oracleC7 "h7.example" "r" 0 50).1.map ReplyNode.id =
      (capMisskey [ChildEntry.mk "bad" (some "u1")]).map ChildEntry.id := by
  have h := tree_node_failure_absorbed oracleC7 "h7.example" "r" "bad" 0 50
    [ChildEntry.mk "bad" (some "u1")] (by decide)
  exact ⟨h.1 (by decide), h.2 (by decide)⟩

/-- The synthesized URI `https://{host}/notes/{id}` is never the empty
string. -/
theorem synth_uri_ne_empty (host id : String) :
    "https://" ++ host ++ "/notes/" ++ id ≠ "" := by
  intro hcontra
  have hlen := congrArg String.length hcontra
  simp [String.length_append, show ("https://").length = 8 from rfl] at hlen

/-- The per-node cap only removes items: every capped child was in the
remote's list. -/
theorem capMisskey_subset {α : Type} (l : List α) : capMisskey l ⊆ l := by
  unfold capMisskey
  split
  · exact List.take_subset _ _
  · exact fun a ha => ha

/-- Membership in the collected nodes of a forest: a node is in
`allNodesList L` iff it is one of the roots of `L` or lies in the collected
nodes of a root's `replies` subtree. -/
theorem mem_allNodesList (L : List ReplyNode) (n : ReplyNode) :
    n ∈ allNodesList L ↔ ∃ r ∈ L, n = r ∨ n ∈ allNodesList r.replies := by
  induction L with
  | nil => simp [allNodesList]
  | cons x t ih =>
      cases x with
      | mk i u rs =>
          simp only [allNodesList, List.mem_cons, List.mem_append, ih,
            ReplyNode.replies]
          constructor
          · intro hc
            rcases hc with rfl | h | ⟨r, hr, hor⟩
            · exact ⟨ReplyNode.mk i u rs, Or.inl rfl, Or.inl rfl⟩
            · exact ⟨ReplyNode.mk i u rs, Or.inl rfl, Or.inr (by
                simpa [ReplyNode.replies] using h)⟩
            · exact ⟨r, Or.inr hr, hor⟩
          · intro hc
            rcases hc with ⟨r, hr | hr, hor⟩
            · subst hr
              rcases hor with rfl | h
              · exact Or.inl rfl
              · exact Or.inr (Or.inl (by simpa [ReplyNode.replies] using h))
            · exact Or.inr (Or.inr ⟨r, hr, hor⟩)

/-- C9 (amended): every child whose remote entry lacks an explicit `uri`
gets one synthesized deterministically as `https://{host}/notes/{id}`, which
is non-empty; consequently, in a world where the remote never supplies an
explicitly empty `uri` string, every node in the returned forest — at any
nesting depth — has a non-empty `uri`. -/
theorem tree_uri_nonempty_of_oracle (oracle : String → Option (List ChildEntry))
    (host : String) (pid : String) (depth max_depth : Nat)
    (hO : oracleUrisNonEmpty oracle) :
    ∀ n ∈ allNodesList (fetch_replies_recursive oracle host pid depth max_depth).1,
      n.uri ≠ "" := by
  induction pid, depth, max_depth using fetch_replies_recursive.induct oracle host with
  | case1 pid depth max_depth h =>
      rw [frr_of_depth_gt oracle host pid h]
      simp [allNodesList]
  | case2 pid depth max_depth h ho =>
      rw [frr_of_none oracle host pid h ho]
      simp [allNodesList]
  | case3 pid depth max_depth h resp ho ih =>
      intro n hn
      rw [frr_fst_of_some oracle host pid h ho, mem_allNodesList] at hn
      obtain ⟨r, hr, hor⟩ := hn
      simp only [List.mem_map] at hr
      obtain ⟨reply, hmem, rfl⟩ := hr
      rcases hor with rfl | hsub
      · cases hu : reply.uri with
        | some u =>
            have hne := hO pid resp reply u ho (capMisskey_subset resp hmem) hu
            simpa [ReplyNode.uri, hu] using hne
        | none =>
            simpa [ReplyNode.uri, hu] using synth_uri_ne_empty host reply.id
      · exact ih reply n (by simpa [ReplyNode.replies] using hsub)

/-- `oracleC9w` never supplies an explicit `uri` at all, so in particular
never an empty one. -/
theorem oracleC9w_wf : oracleUrisNonEmpty oracleC9w := by
  intro id l e u hl he hu
  by_cases hid : id = "r9"
  · simp [oracleC9w, hid] at hl
    subst hl
    simp at he
    subst he
    simp at hu
  · simp [oracleC9w, hid] at hl
    subst hl
    simp at he

/-- Evaluation: the traversal of `oracleC9w` returns exactly the root's one
child, with the synthesized URI. -/
theorem frr_oracleC9w_eval :
    fetch_replies_recursive oracleC9w "h9.example" "r9" 0 50 =
      ([ReplyNode.mk "k1" "https://h9.example/notes/k1" []],
       [Ev.treeListing "r9" 0, Ev.treeListing "k1" 1,
        Ev.notify "https://h9.example/notes/k1"]) := by
  rw [fetch_replies_recursive.eq_def]
  norm_num [oracleC9w, capMisskey]
  rw [fetch_replies_recursive.eq_def]
  norm_num [oracleC9w, capMisskey, ReplyNode.uri,
    show ("k1" = "r9") = False from by decide]
  decide

/-- Witness for C9 (amended) at a concrete input: the synthesized URI of the
child `"k1"` of `oracleC9w`'s root is non-empty. -/
theorem tree_uri_nonempty_witness :
    (ReplyNode.mk "k1" "https://h9.example/notes/k1" []).uri ≠ "" := by
  apply tree_uri_nonempty_of_oracle oracleC9w "h9.example" "r9" 0 50 oracleC9w_wf
  rw [frr_oracleC9w_eval]
  simp [allNodesList]

/-- Evaluation: the traversal of `oracleC9` returns exactly the root's one
child, keeping the remote's explicitly empty `uri` string. -/
theorem frr_oracleC9_eval :
    fetch_replies_recursive oracleC9 "h.example" "root" 0 50 =
      ([ReplyNode.mk "c1" "" []],
       [Ev.treeListing "root" 0, Ev.treeListing "c1" 1, Ev.notify ""]) := by
  rw [fetch_replies_recursive.eq_def]
  norm_num [oracleC9, capMisskey]
  rw [fetch_replies_recursive.eq_def]
  norm_num [oracleC9, capMisskey, ReplyNode.uri,
    show ("c1" = "root") = False from by decide]

/-- Counterexample to C9 as stated: when the remote's child entry carries an
explicitly empty `uri` string (the field is present, so no synthesis
happens, main.py line 145), the returned node's `uri` is empty — the
traversal of `oracleC9` returns a node whose `uri` is `""`. -/
theorem tree_uri_empty_cex :
    (fetch_replies_recursive oracleC9 "h.example" "root" 0 50).1.map ReplyNode.uri =
      [""] := by
  rw [frr_oracleC9_eval]
  simp [ReplyNode.uri]

/-- After the debounce gate decides to proceed, the trace continues with the
mark, then the redirect GET, then only discovery I/O (listings and
notifications). -/
theorem proceed_trace_shape (env : Env) (st : St) (req : FetchRepliesRequest)
    (tr1 : List Ev) :
    ∃ rest, (fetch_replies_proceed env st req tr1).trace =
      tr1 ++ [Ev.debounceMark, Ev.redirectGet] ++ rest ∧
      ∀ e ∈ rest, isDiscoveryEvent e = true := by
  unfold fetch_replies_proceed
  by_cases hr : env.redirectStatus ≠ 200
  · refine ⟨[], ?_, by simp⟩
    simp [hr]
  · cases hp : detectPlatform (extractPostId env.redirectFinalUrl) with
    | FlatAPI =>
        by_cases hf : env.flatStatus ≠ 200
        · refine ⟨[Ev.flatListing], ?_, by simp [isDiscoveryEvent]⟩
          simp [hr, hp, hf]
        · refine ⟨Ev.flatListing :: (capMastodon env.flatDescendants).map Ev.notify,
            ?_, ?_⟩
          · simp [hr, hp, hf]
          · intro e he
            rcases List.mem_cons.1 he with rfl | he
            · rfl
            · obtain ⟨u, _, rfl⟩ := List.mem_map.1 he
              rfl
    | TreeAPI =>
        refine ⟨(fetch_replies_recursive env.treeOracle
            (netlocOf env.redirectFinalUrl) (extractPostId env.redirectFinalUrl)
            0 50).2, ?_, ?_⟩
        · simp [hr, hp]
        · exact frr_trace_discovery _ _ _ _ _

/-- The proceed phase leaves the caches exactly as they were, except that
the debounce cache now maps the raw `request.post_url` to the current
time. -/
theorem proceed_st_eq (env : Env) (st : St) (req : FetchRepliesRequest)
    (tr1 : List Ev) :
    (fetch_replies_proceed env st req tr1).st =
      { st with debounceCache := fun k =>
          if k = req.post_url then some st.now else st.debounceCache k } := by
  unfold fetch_replies_proceed
  by_cases hr : env.redirectStatus ≠ 200
  · simp [hr]
  · cases hp : detectPlatform (extractPostId env.redirectFinalUrl) with
    | FlatAPI =>
        by_cases hf : env.flatStatus ≠ 200
        · simp [hr, hp, hf]
        · simp [hr, hp, hf]
    | TreeAPI => simp [hr, hp]

/-- No branch of the proceed phase answers with the debounce message. -/
theorem proceed_message_ne_debounced (env : Env) (st : St)
    (req : FetchRepliesRequest) (tr1 : List Ev) :
    (fetch_replies_proceed env st req tr1).message ≠ "Debounced" := by
  unfold fetch_replies_proceed
  by_cases hr : env.redirectStatus ≠ 200
  · simp [hr]
  · cases hp : detectPlatform (extractPostId env.redirectFinalUrl) with
    | FlatAPI =>
        by_cases hf : env.flatStatus ≠ 200
        · simp [hr, hp, hf]
        · simp [hr, hp, hf]
    | TreeAPI =>
        simp [hr, hp]

/-- When the redirect-resolving GET answers non-200, the proceed phase fails
the request with status 500 and the unreachable-post message. -/
theorem proceed_redirect_fail (env : Env) (st : St) (req : FetchRepliesRequest)
    (tr1 : List Ev) (hr : env.redirectStatus ≠ 200) :
    (fetch_replies_proceed env st req tr1).message = "Failed to fetch post URL" ∧
    (fetch_replies_proceed env st req tr1).httpStatus = 500 := by
  unfold fetch_replies_proceed
  simp [hr]

/-- The debounce-gate phase: its trace is the accumulated trace plus the
check alone (debounced), or continues into the proceed phase. -/
theorem main_trace_shape (env : Env) (st : St) (req : FetchRepliesRequest)
    (tr0 : List Ev) :
    (fetch_replies_main env st req tr0).trace = tr0 ++ [Ev.debounceCheck] ∨
    ∃ rest, (fetch_replies_main env st req tr0).trace =
      tr0 ++ [Ev.debounceCheck, Ev.debounceMark, Ev.redirectGet] ++ rest ∧
      ∀ e ∈ rest, isDiscoveryEvent e = true := by
  unfold fetch_replies_main
  cases hb : (match st.debounceCache req.post_url with
    | some t => decide (st.now - t < DEBOUNCE_TIMEOUT)
    | none => false) with
  | true =>
      left
      simp [hb]
  | false =>
      right
      obtain ⟨rest, htr, hdisc⟩ :=
        proceed_trace_shape env st req (tr0 ++ [Ev.debounceCheck])
      refine ⟨rest, ?_, hdisc⟩
      simp only [hb, if_neg Bool.false_ne_true]
      simpa [List.append_assoc] using htr

/-- A request whose debounce entry is active answers `"Debounced"` without
touching the state. -/
theorem main_debounced (env : Env) (st : St) (req : FetchRepliesRequest)
    (tr0 : List Ev) (t : Nat) (h : st.debounceCache req.post_url = some t)
    (hw : st.now - t < DEBOUNCE_TIMEOUT) :
    (fetch_replies_main env st req tr0).message = "Debounced" ∧
    (fetch_replies_main env st req tr0).st = st := by
  unfold fetch_replies_main
  simp [h, hw]

/-- The debounce-gate phase answers `"Debounced"` exactly when an entry for
the raw `request.post_url` exists and is younger than the window; otherwise
it proceeds and stamps that same raw key with the current time. -/
theorem main_debounce_semantics (env : Env) (st : St) (req : FetchRepliesRequest)
    (tr0 : List Ev) :
    ((fetch_replies_main env st req tr0).message = "Debounced" ↔
      ∃ t, st.debounceCache req.post_url = some t ∧
        st.now - t < DEBOUNCE_TIMEOUT) ∧
    ((fetch_replies_main env st req tr0).message ≠ "Debounced" →
      (fetch_replies_main env st req tr0).st.debounceCache req.post_url =
        some st.now) := by
  cases hb : (match st.debounceCache req.post_url with
    | some t => decide (st.now - t < DEBOUNCE_TIMEOUT)
    | none => false) with
  | true =>
      cases hc : st.debounceCache req.post_url with
      | none => rw [hc] at hb; simp at hb
      | some t =>
          rw [hc] at hb
          have hw : st.now - t < DEBOUNCE_TIMEOUT := of_decide_eq_true hb
          have hm := main_debounced env st req tr0 t hc hw
          refine ⟨⟨fun _ => ⟨t, rfl, hw⟩, fun _ => hm.1⟩,
            fun hne => absurd hm.1 hne⟩
  | false =>
      have hpr : fetch_replies_main env st req tr0 =
          fetch_replies_proceed env st req (tr0 ++ [Ev.debounceCheck]) := by
        unfold fetch_replies_main
        simp [hb]
      constructor
      · rw [hpr]
        constructor
        · intro hmsg
          exact absurd hmsg (proceed_message_ne_debounced env st req _)
        · intro ⟨t, hc, hw⟩
          rw [hc] at hb
          simp [hw] at hb
      · intro _
        rw [hpr, proceed_st_eq]
        simp

/-- Under a token that can authenticate (cached, or the identity endpoint
answers 200), the request reaches the debounce gate with the debounce cache
and clock untouched and the token present in the authentication cache. -/
theorem fetch_replies_reaches_main (env : Env) (st : St)
    (req : FetchRepliesRequest)
    (hAuth : st.authCache req.token ≠ none ∨ env.authStatus = 200) :
    ∃ st' tr0, fetch_replies env st req = fetch_replies_main env st' req tr0 ∧
      st'.debounceCache = st.debounceCache ∧ st'.now = st.now ∧
      ∃ u, st'.authCache req.token = some u := by
  unfold fetch_replies
  cases hc : st.authCache req.token with
  | some u => exact ⟨st, [], rfl, rfl, rfl, u, hc⟩
  | none =>
      have ha : env.authStatus = 200 := by
        rcases hAuth with h | h
        · exact absurd hc h
        · exact h
      refine ⟨{ st with authCache := fun k =>
          if k = req.token then some env.authUsername else st.authCache k },
        [Ev.authNet], ?_, rfl, rfl, env.authUsername, by simp⟩
      simp [hc, ha]

/-- A request whose token is already cached skips the identity call and goes
straight to the debounce gate (main.py lines 52, 64-65). -/
theorem fetch_replies_cached_token (env : Env) (st : St)
    (req : FetchRepliesRequest) (u : String)
    (h : st.authCache req.token = some u) :
    fetch_replies env st req = fetch_replies_main env st req [] := by
  unfold fetch_replies
  rw [h]

/-- C2 (amended): the authentication gate runs first — its network call is
the only I/O that can precede the debounce check — and the debounce gate is
checked, and on proceed immediately marked, before all remaining outbound
I/O of the request: every request trace is the auth failure alone, or an
optional auth call followed by the debounce check (debounced), or an
optional auth call, the check, immediately the mark, then the redirect GET
and only discovery I/O. -/
theorem gate_order_auth_then_debounce (env : Env) (st : St)
    (req : FetchRepliesRequest) :
    requestTrace env st req = [Ev.authNet] ∨
    ∃ a, (a = [] ∨ a = [Ev.authNet]) ∧
      (requestTrace env st req = a ++ [Ev.debounceCheck] ∨
       ∃ rest, requestTrace env st req =
           a ++ [Ev.debounceCheck, Ev.debounceMark, Ev.redirectGet] ++ rest ∧
         ∀ e ∈ rest, isDiscoveryEvent e = true) := by
  unfold requestTrace fetch_replies
  cases hc : st.authCache req.token with
  | some u =>
      right
      refine ⟨[], Or.inl rfl, ?_⟩
      rcases main_trace_shape env st req [] with h | ⟨rest, h, hd⟩
      · left
        simpa using h
      · right
        exact ⟨rest, by simpa using h, hd⟩
  | none =>
      by_cases ha : env.authStatus ≠ 200
      · left
        simp [ha]
      · right
        push_neg at ha
        refine ⟨[Ev.authNet], Or.inr rfl, ?_⟩
        rcases main_trace_shape env
          { st with authCache := fun k =>
              if k = req.token then some env.authUsername else st.authCache k }
          req [Ev.authNet] with h | ⟨rest, h, hd⟩
        · left
          simpa [ha] using h
        · right
          exact ⟨rest, by simpa [ha] using h, hd⟩

/-- Counterexample to C2 as stated: for a request with an uncached token,
the authentication network call happens strictly before the debounce check —
the debounce gate is neither the first gate nor ahead of all network I/O
(main.py runs lines 52-63 before line 67). -/
theorem debounce_after_auth_cex :
    Ev.authNet ∈ requestTrace envC2 stC2 reqC2 ∧
    Ev.debounceCheck ∈ requestTrace envC2 stC2 reqC2 ∧
    (requestTrace envC2 stC2 reqC2).indexOf Ev.authNet <
      (requestTrace envC2 stC2 reqC2).indexOf Ev.debounceCheck := by
  decide

/-- C3 (amended): the debounce cache is keyed by the caller-supplied
`request.post_url` as received, before redirect resolution — check and mark
use that same raw key — and (given a token that can authenticate) the
request is debounced iff an entry exists for that exact raw URL string whose
age is strictly less than 180 seconds; on proceed the same raw key is
stamped with the current time. -/
theorem debounce_raw_key_semantics (env : Env) (st : St)
    (req : FetchRepliesRequest)
    (hAuth : st.authCache req.token ≠ none ∨ env.authStatus = 200) :
    ((fetch_replies env st req).message = "Debounced" ↔
      ∃ t, st.debounceCache req.post_url = some t ∧
        st.now - t < DEBOUNCE_TIMEOUT) ∧
    ((fetch_replies env st req).message ≠ "Debounced" →
      (fetch_replies env st req).st.debounceCache req.post_url = some st.now) := by
  obtain ⟨st', tr0, heq, hdb, hnow, u, hau⟩ :=
    fetch_replies_reaches_main env st req hAuth
  rw [heq]
  have h := main_debounce_semantics env st' req tr0
  rw [hdb, hnow] at h
  exact h

/-- Witness for C3 (amended) at a concrete input: with an entry 100 seconds
old for the requested URL, the request answers `"Debounced"`. -/
theorem debounce_raw_key_semantics_witness :
    (fetch_replies envC3b stC3w reqC3w).message = "Debounced" :=
  (debounce_raw_key_semantics envC3b stC3w reqC3w (Or.inl (by decide))).1.mpr
    ⟨1000, by decide, by decide⟩

/-- Counterexample to C3 as stated: the key is the URL before redirect
resolution.  After a request for `"https://orig.example/r"` that resolved to
the canonical URL `"https://final.example/@u/123456789012345678"`, the
debounce cache holds an entry for the raw URL and none for the canonical
one; a repeat request for the raw URL within the window is debounced, while
one for the canonical URL is not. -/
theorem debounce_canonical_key_cex :
    (fetch_replies envC3 stC3 reqC3).st.debounceCache
      "https://orig.example/r" = some 1000 ∧
    (fetch_replies envC3 stC3 reqC3).st.debounceCache
      "https://final.example/@u/123456789012345678" = none ∧
    (fetch_replies envC3b
      { (fetch_replies envC3 stC3 reqC3).st with now := 1001 } reqC3).message =
      "Debounced" ∧
    (fetch_replies envC3b
      { (fetch_replies envC3 stC3 reqC3).st with now := 1001 } reqC3final).message =
      "Failed to fetch post URL" := by
  have h1 : fetch_replies envC3 stC3 reqC3 =
      fetch_replies_main envC3 stC3auth reqC3 [Ev.authNet] := by
    unfold fetch_replies
    rfl
  have h2 : fetch_replies_main envC3 stC3auth reqC3 [Ev.authNet] =
      fetch_replies_proceed envC3 stC3auth reqC3
        [Ev.authNet, Ev.debounceCheck] := by
    unfold fetch_replies_main
    rfl
  have hst : (fetch_replies envC3 stC3 reqC3).st = stC3a := by
    rw [h1, h2, proceed_st_eq]
    rfl
  have hst2 : { (fetch_replies envC3 stC3 reqC3).st with now := 1001 } = stC3a2 := by
    rw [hst]
    rfl
  refine ⟨by rw [hst]; decide, by rw [hst]; decide, ?_, ?_⟩
  · rw [hst2, fetch_replies_cached_token envC3b stC3a2 reqC3 "alice" (by decide)]
    exact (main_debounced envC3b stC3a2 reqC3 [] 1000 (by decide) (by decide)).1
  · rw [hst2, fetch_replies_cached_token envC3b stC3a2 reqC3final "alice" (by decide)]
    have h3 : fetch_replies_main envC3b stC3a2 reqC3final [] =
        fetch_replies_proceed envC3b stC3a2 reqC3final [Ev.debounceCheck] := by
      unfold fetch_replies_main
      rfl
    rw [h3]
    exact (proceed_redirect_fail envC3b stC3a2 reqC3final [Ev.debounceCheck]
      (by decide)).1

/-- C10: the debounce entry is written (main.py line 71) before the
redirect-resolving GET (line 74), so a request failing with the
unreachable-post error still records its trigger time — the entry is not
rolled back — and every later request for the same URL string within 180
seconds is debounced, in any world, even though no backfill happened. -/
theorem debounce_not_rolled_back (env : Env) (st : St)
    (req : FetchRepliesRequest) (t₂ : Nat)
    (hAuth : st.authCache req.token ≠ none ∨ env.authStatus = 200)
    (hNo : st.debounceCache req.post_url = none)
    (hRed : env.redirectStatus ≠ 200)
    (hWin : t₂ - st.now < DEBOUNCE_TIMEOUT) :
    (fetch_replies env st req).message = "Failed to fetch post URL" ∧
    (fetch_replies env st req).httpStatus = 500 ∧
    (fetch_replies env st req).st.debounceCache req.post_url = some st.now ∧
    ∀ env₂ : Env,
      (fetch_replies env₂
        { (fetch_replies env st req).st with now := t₂ } req).message =
        "Debounced" := by
  obtain ⟨st', tr0, heq, hdb, hnow, u, hau⟩ :=
    fetch_replies_reaches_main env st req hAuth
  have hb : (match st'.debounceCache req.post_url with
      | some t => decide (st'.now - t < DEBOUNCE_TIMEOUT)
      | none => false) = false := by
    rw [hdb, hNo]
  have hpr : fetch_replies_main env st' req tr0 =
      fetch_replies_proceed env st' req (tr0 ++ [Ev.debounceCheck]) := by
    unfold fetch_replies_main
    simp [hb]
  have hst : (fetch_replies env st req).st =
      { st' with debounceCache := fun k =>
          if k = req.post_url then some st'.now else st'.debounceCache k } := by
    rw [heq, hpr, proceed_st_eq]
  have hmsg := proceed_redirect_fail env st' req (tr0 ++ [Ev.debounceCheck]) hRed
  refine ⟨?_, ?_, ?_, ?_⟩
  · rw [heq, hpr]
    exact hmsg.1
  · rw [heq, hpr]
    exact hmsg.2
  · rw [hst]
    simp [hnow]
  · intro env₂
    have hau₂ : ({ (fetch_replies env st req).st with now := t₂ }).authCache
        req.token = some u := by
      rw [hst]
      exact hau
    rw [fetch_replies_cached_token env₂ _ req u hau₂]
    apply (main_debounced env₂ _ req [] st.now ?_ ?_).1
    · rw [hst]
      simp [hnow]
    · exact hWin

/-- Witness for C10 at a concrete input: the unreachable-post request at
time 1000 records its trigger, and a repeat request at time 1100 in a world
where every call fails is debounced. -/
theorem debounce_not_rolled_back_witness :
    (fetch_replies envC10 stC10 reqC10).message = "Failed to fetch post URL" ∧
    (fetch_replies envC10b
      { (fetch_replies envC10 stC10 reqC10).st with now := 1100 } reqC10).message =
      "Debounced" := by
  have h := debounce_not_rolled_back envC10 stC10 reqC10 1100
    (Or.inr rfl) rfl (by decide) (by decide)
  exact ⟨h.1, h.2.2.2 envC10b⟩
